import Mathlib

/-!
Verification of the StaySTRa revenue-projection engine.

Shallow embedding of src/utils/analysisCalculations.js and the revenue and
cache-reconciliation logic of src/routes/property-analysis-v2.js.  JS numbers
are idealized as rationals.  A numeric field that may be missing (absent key,
undefined, null, or NaN) is modelled as `Option ℚ`: all of those inputs are
sent to 0 by the `x || 0` idiom and fail the strict comparison `x > 0`, exactly
as `none` does below.  Random draws (`Math.random()` based factors) are exposed
as explicit parameters, constrained in theorems to the interval the source
draws them from.
-/

namespace StaySTRa

/-- One comparable property; `calculateRevenues` reads only the nested
`comp.stats?.adr?.ltm` field, modelled here as an optional rational. -/
structure Comp where
  adrLTM : Option ℚ
deriving DecidableEq

/-- The `property_statistics` fields read by `calculateRevenues`
(analysisCalculations.js lines 17-19). -/
structure Stats where
  revenueLTM : Option ℚ
  cleaningFeeLTM : Option ℚ
  occupancyLTM : Option ℚ
deriving DecidableEq

/-- The JS defaulting idiom `stats?.field?.ltm || 0`: a missing field (and the
number 0 itself) becomes 0. -/
def orZero (x : Option ℚ) : ℚ := x.getD 0

/-- The filter predicate `comp.stats?.adr?.ltm > 0` of line 35: false when the
field is absent. -/
def adrPos (c : Comp) : Bool :=
  match c.adrLTM with
  | some a => decide (0 < a)
  | none => false

/-- The ADR value `comp.stats.adr.ltm` of a comp (read inside the branch where
it is known positive; 0 when absent). -/
def adrVal (c : Comp) : ℚ := c.adrLTM.getD 0

/-- Ordering realized by the sort comparator `(a, b) => b.stats.adr.ltm -
a.stats.adr.ltm` of line 42: `a` may precede `b` exactly when the ADR of `a`
is at least the ADR of `b`, i.e. the list is sorted by ADR descending. -/
def adrGE (a b : Comp) : Prop := adrVal b ≤ adrVal a

instance : DecidableRel adrGE :=
  fun a b => inferInstanceAs (Decidable (adrVal b ≤ adrVal a))

instance : IsTotal Comp adrGE := ⟨fun a b => le_total (adrVal b) (adrVal a)⟩

instance : IsTrans Comp adrGE := ⟨fun _ _ _ h1 h2 => le_trans h2 h1⟩

/-- Result triple of `calculateRevenues` (lines 100-106). -/
structure Revenues where
  typical : ℚ
  top25 : ℚ
  top10 : ℚ
deriving DecidableEq

/-- Line 35: `comps.filter(comp => comp.stats?.adr?.ltm > 0)`. -/
def compsWithADR (comps : List Comp) : List Comp := comps.filter adrPos

/-- Lines 47-52: `min(max(1, Math.ceil(len * frac)), len)` — the subset size for
a top fraction, floored at 1 and capped at the list length. -/
def actualNumTop (len : ℕ) (frac : ℚ) : ℕ :=
  min (max 1 (Int.toNat ⌈(len : ℚ) * frac⌉)) len

/-- Lines 60-61: arithmetic mean of the ADRs of a comp list
(`reduce((sum, comp) => sum + comp.stats.adr.ltm, 0) / length`, guarded by
`length > 0`, else 0). -/
def avgADR (l : List Comp) : ℚ :=
  if 0 < l.length then (l.map adrVal).sum / l.length else 0

/-- Lines 42-70 inside the positive branch: sort the filtered comps by ADR
descending, slice the top fraction, and compute
`avgADR * occupancy * 365 + cleaningFee`. -/
def topRevenue (comps : List Comp) (occ cleaning frac : ℚ) : ℚ :=
  let cs := compsWithADR comps
  let tops := (List.insertionSort adrGE cs).take (actualNumTop cs.length frac)
  avgADR tops * occ * 365 + cleaning

/-- The pre-jitter part of `calculateRevenues` (lines 13-78): the typical figure
`revenueLTM + cleaningFeeLTM`, and the two top-tier figures, which are both 0
unless some comp has positive ADR and the market occupancy is positive. -/
def calculateRevenuesPre (stats : Stats) (comps : List Comp) : Revenues :=
  let marketRevenueLTM := orZero stats.revenueLTM
  let marketCleaningLTM := orZero stats.cleaningFeeLTM
  let marketOccupancyLTM := orZero stats.occupancyLTM
  let calculatedRevenueTypical := marketRevenueLTM + marketCleaningLTM
  if 0 < (compsWithADR comps).length ∧ 0 < marketOccupancyLTM then
    { typical := calculatedRevenueTypical
      top25 := topRevenue comps marketOccupancyLTM marketCleaningLTM (25/100)
      top10 := topRevenue comps marketOccupancyLTM marketCleaningLTM (10/100) }
  else
    { typical := calculatedRevenueTypical, top25 := 0, top10 := 0 }

/-- Lines 83-89: `applyRandomness`, with the random draw
`Math.random() * 0.02 - 0.01` exposed as the parameter `f`; the source draws
`f` from the interval from -1/100 to 1/100. -/
def applyRandomness (value f : ℚ) : ℚ :=
  if value ≤ 0 then value else value * (1 + f)

/-- `calculateRevenues` (lines 13-107): the pre-jitter figures with
`applyRandomness` applied to each, using three independent draws. -/
def calculateRevenues (stats : Stats) (comps : List Comp) (f1 f2 f3 : ℚ) :
    Revenues :=
  let pre := calculateRevenuesPre stats comps
  { typical := applyRandomness pre.typical f1
    top25 := applyRandomness pre.top25 f2
    top10 := applyRandomness pre.top10 f3 }

/-! ### Embedding of the analyze route (src/routes/property-analysis-v2.js) -/

/-- Lines 45-50: `vary(value, maxPercent = 1.5)`, with the two random draws
exposed: `percent = Math.random() * 1.5 * 10 / 1000`, drawn from the interval
from 0 to 15/1000, and `direction`, either 1 or -1.  The `typeof` guard is
vacuous over ℚ, so only the `value === 0` guard remains. -/
def vary (value percent direction : ℚ) : ℚ :=
  if value = 0 then value else value + value * percent * direction

/-- Lines 370-383: the three `projected_revenue_*` fields of
`formattedResponse`, obtained by applying `vary` (with independent draws) to
the three figures returned by `calculateRevenues`. -/
def responseRevenues (rev : Revenues) (p1 d1 p2 d2 p3 d3 : ℚ) : Revenues :=
  { typical := vary rev.typical p1 d1
    top25 := vary rev.top25 p2 d2
    top10 := vary rev.top10 p3 d3 }

/-- The route validation reads only the presence of the three required
sub-objects of the top-level `data` object (lines 293 and 328); a payload is
abstracted to those presence flags. -/
structure DataObj where
  property_details : Bool
  property_statistics : Bool
  combined_market_info : Bool
deriving DecidableEq

/-- A raw provider payload: `data` is `some` exactly when the top-level `data`
key holds a non-null object. -/
structure Payload where
  data : Option DataObj
deriving DecidableEq

/-- Outcome of the cache lookup (lines 126-151).  `hit p` means the query
succeeded and returned a row whose `last_fetched` lies within the 30-day
window enforced by the SQL WHERE clause; `miss` means the query succeeded with
no such row; `err` means the query threw (storage unavailable). -/
inductive CacheCheck
  | hit (p : Payload)
  | miss
  | err
deriving DecidableEq

/-- Outcome of the provider fetch (lines 209-251): a 2xx response carrying a
JSON payload, or a non-2xx status or transport failure. -/
inductive FetchOutcome
  | ok (p : Payload)
  | httpError
deriving DecidableEq

/-- Outcome of the cache upsert (lines 261-269). -/
inductive PersistOutcome
  | ok
  | fail
deriving DecidableEq

/-- Combined structural validation of lines 293 (top-level `data` is a
non-null object) and 328 (`property_details`, `property_statistics` and
`combined_market_info` all present); a payload failing either check makes the
route return a success-false response. -/
def validPayload (p : Payload) : Bool :=
  match p.data with
  | some d => d.property_details && d.property_statistics && d.combined_market_info
  | none => false

/-- Observable outcome of one request through the analyze route. -/
structure RunResult where
  /-- whether the external provider fetch was issued -/
  fetchCalled : Bool
  /-- value of the `source` variable at the moment the fetch is issued -/
  sourceAtFetch : Option String
  /-- whether the cache upsert was attempted -/
  cacheWriteAttempted : Bool
  /-- payload stored by the upsert when it succeeded -/
  cacheWritten : Option Payload
  /-- cache-check-failure alert sent to the webhook -/
  alertCacheCheck : Bool
  /-- cache-save-failure alert sent to the webhook -/
  alertCacheSave : Bool
  /-- the `success` flag of the JSON response -/
  success : Bool
  /-- final value of the `source` variable -/
  source : String
  /-- `rawExternalResponse` at the processing stage (the payload the analysis
  runs on), `none` when the request terminated before reaching it -/
  payloadUsed : Option Payload
deriving DecidableEq

/-- The cache-miss branch of the route (lines 158-283): issue the provider
fetch; on a non-2xx response alert, log and return success-false; on success
set `source = api` (line 252) and attempt the cache upsert on the raw payload
(lines 258-281) before any validation, alerting on a write failure without
failing the request; then fall through to validation. -/
def fetchBranch (source0 : String) (alertCache : Bool)
    (fetch : FetchOutcome) (persist : PersistOutcome) : RunResult :=
  match fetch with
  | .httpError =>
      { fetchCalled := true, sourceAtFetch := some source0
        cacheWriteAttempted := false, cacheWritten := none
        alertCacheCheck := alertCache, alertCacheSave := false
        success := false, source := source0, payloadUsed := none }
  | .ok p =>
      { fetchCalled := true, sourceAtFetch := some source0
        cacheWriteAttempted := true
        cacheWritten := match persist with | .ok => some p | .fail => none
        alertCacheCheck := alertCache
        alertCacheSave := match persist with | .ok => false | .fail => true
        success := validPayload p, source := "api", payloadUsed := some p }

/-- One request through the analyze route (lines 120-421): cache check
(hit populates `rawExternalResponse` with `source = cache`; miss leaves it
null with `source = api`; a thrown lookup alerts and leaves it null with
`source = api_due_to_cache_error`), then the fetch branch when the payload is
still null, then the two-stage structural validation which determines the
`success` flag of the response. -/
def analyzeFlow (cache : CacheCheck) (fetch : FetchOutcome)
    (persist : PersistOutcome) : RunResult :=
  match cache with
  | .hit p =>
      { fetchCalled := false, sourceAtFetch := none
        cacheWriteAttempted := false, cacheWritten := none
        alertCacheCheck := false, alertCacheSave := false
        success := validPayload p, source := "cache", payloadUsed := some p }
  | .miss => fetchBranch "api" false fetch persist
  | .err => fetchBranch "api_due_to_cache_error" true fetch persist

/-- Reference figure built from the wording of the specification: the
arithmetic mean of the first min(n, max(1, ceil(frac * n))) elements of the
positive-ADR comps sorted by ADR descending, times occupancy, times 365, plus
the cleaning fee. -/
def specTopRevenue (comps : List Comp) (occ cleaning frac : ℚ) : ℚ :=
  let filtered := comps.filter adrPos
  let n := filtered.length
  let k := min n (max 1 (Int.toNat ⌈frac * (n : ℚ)⌉))
  ((((List.insertionSort adrGE filtered).take k).map adrVal).sum / k) * occ * 365
    + cleaning

/-- A stats object with the `|| 0` defaulting already applied to all three
fields. -/
def defaultStats (s : Stats) : Stats :=
  ⟨some (orZero s.revenueLTM), some (orZero s.cleaningFeeLTM),
    some (orZero s.occupancyLTM)⟩

/-- A comp with a missing ADR replaced by the ADR 0. -/
def defaultComp (c : Comp) : Comp := ⟨some (adrVal c)⟩

/-! ### Prefix sums and means of a non-increasing list -/

/-- In a non-increasing rational list, any element of the first `j` entries
dominates the entry at a position at or beyond `j`. -/
theorem take_mem_ge (l : List ℚ) (hl : l.Pairwise (fun a b => b ≤ a))
    {j k : ℕ} (hjk : j ≤ k) (hk : k < l.length) {x : ℚ} (hx : x ∈ l.take j) :
    l[k] ≤ x := by
  rcases List.mem_iff_getElem.mp hx with ⟨i, hi, rfl⟩
  have hij : i < j := by
    have h := hi
    rw [List.length_take] at h
    omega
  rw [List.getElem_take]
  exact (List.pairwise_iff_getElem.mp hl) i k (by omega) hk (by omega)

/-- The sum of the first `j` entries of a non-increasing rational list is at
least `j` times the entry at any position at or beyond `j`. -/
theorem card_mul_le_sum_take (l : List ℚ) (hl : l.Pairwise (fun a b => b ≤ a))
    {j k : ℕ} (hjk : j ≤ k) (hk : k < l.length) :
    (j : ℚ) * l[k] ≤ (l.take j).sum := by
  have h := List.card_nsmul_le_sum (l.take j) l[k]
    (fun x hx => take_mem_ge l hl hjk hk hx)
  rw [List.length_take, min_eq_left (by omega)] at h
  simpa [nsmul_eq_mul] using h

/-- Cross-multiplied monotonicity of prefix means of a non-increasing list. -/
theorem sum_take_mul_mono (l : List ℚ) (hl : l.Pairwise (fun a b => b ≤ a))
    {j k : ℕ} (hjk : j ≤ k) :
    k ≤ l.length → (l.take k).sum * (j : ℚ) ≤ (l.take j).sum * (k : ℚ) := by
  induction k, hjk using Nat.le_induction with
  | base => intro _; exact le_refl _
  | succ k hjk ih =>
    intro hk
    have hkl : k < l.length := by omega
    have hstep : (j : ℚ) * l[k] ≤ (l.take j).sum :=
      card_mul_le_sum_take l hl hjk hkl
    have ihk := ih (by omega)
    rw [List.sum_take_succ l k hkl]
    push_cast
    nlinarith [ihk, hstep]

/-- The mean of the first `k` entries of a non-increasing rational list is
monotone non-increasing in `k`. -/
theorem avg_take_anti (l : List ℚ) (hl : l.Pairwise (fun a b => b ≤ a))
    {j k : ℕ} (hj : 1 ≤ j) (hjk : j ≤ k) (hk : k ≤ l.length) :
    (l.take k).sum / (k : ℚ) ≤ (l.take j).sum / (j : ℚ) := by
  have hj0 : (0 : ℚ) < (j : ℚ) := by exact_mod_cast hj
  have hk0 : (0 : ℚ) < (k : ℚ) := by exact_mod_cast (by omega : 1 ≤ k)
  rw [div_le_div_iff₀ hk0 hj0]
  exact sum_take_mul_mono l hl hjk hk

/-! ### Facts about the subset sizes and the top-tier figures -/

theorem one_le_actualNumTop {n : ℕ} (hn : 1 ≤ n) (frac : ℚ) :
    1 ≤ actualNumTop n frac :=
  le_min (le_max_left 1 _) hn

theorem actualNumTop_le (n : ℕ) (frac : ℚ) : actualNumTop n frac ≤ n :=
  min_le_right _ n

theorem actualNumTop_mono (n : ℕ) {f g : ℚ} (hfg : f ≤ g) :
    actualNumTop n f ≤ actualNumTop n g := by
  unfold actualNumTop
  refine min_le_min (max_le_max le_rfl ?_) le_rfl
  refine Int.toNat_le_toNat (Int.ceil_le_ceil ?_)
  exact mul_le_mul_of_nonneg_left hfg (Nat.cast_nonneg n)

/-- The sorted filtered list, with its ADR values taken, is non-increasing. -/
theorem sortedADR_pairwise (cs : List Comp) :
    ((List.insertionSort adrGE cs).map adrVal).Pairwise (fun a b => b ≤ a) := by
  have hs : (List.insertionSort adrGE cs).Pairwise adrGE :=
    List.sorted_insertionSort adrGE cs
  exact hs.map adrVal (fun a b h => h)

/-- Unfolding of the mean over a top slice of the sorted list. -/
theorem avgADR_take (cs : List Comp) {k : ℕ} (hk1 : 1 ≤ k) (hk : k ≤ cs.length) :
    avgADR ((List.insertionSort adrGE cs).take k)
      = (((List.insertionSort adrGE cs).map adrVal).take k).sum / (k : ℚ) := by
  have hlen : ((List.insertionSort adrGE cs).take k).length = k := by
    rw [List.length_take, List.length_insertionSort]
    omega
  rw [avgADR, hlen, if_pos (by omega : 0 < k), List.map_take]

/-- A smaller top fraction yields a top-tier revenue at least as large. -/
theorem topRevenue_anti (comps : List Comp) (occ cleaning : ℚ) (hocc : 0 ≤ occ)
    (hn : 0 < (compsWithADR comps).length) {f g : ℚ} (hfg : f ≤ g) :
    topRevenue comps occ cleaning g ≤ topRevenue comps occ cleaning f := by
  have hkf1 : 1 ≤ actualNumTop (compsWithADR comps).length f :=
    one_le_actualNumTop hn f
  have hkfg : actualNumTop (compsWithADR comps).length f
      ≤ actualNumTop (compsWithADR comps).length g :=
    actualNumTop_mono _ hfg
  have hkg : actualNumTop (compsWithADR comps).length g
      ≤ (compsWithADR comps).length :=
    actualNumTop_le _ g
  have hL : (((List.insertionSort adrGE (compsWithADR comps)).map adrVal)).length
      = (compsWithADR comps).length := by
    rw [List.length_map, List.length_insertionSort]
  have havg := avg_take_anti
    ((List.insertionSort adrGE (compsWithADR comps)).map adrVal)
    (sortedADR_pairwise (compsWithADR comps)) hkf1 hkfg (by omega)
  rw [topRevenue, topRevenue,
    avgADR_take (compsWithADR comps) hkf1 (le_trans hkfg hkg),
    avgADR_take (compsWithADR comps) (le_trans hkf1 hkfg) hkg]
  have h365 : (0 : ℚ) ≤ 365 := by norm_num
  exact add_le_add_right
    (mul_le_mul_of_nonneg_right (mul_le_mul_of_nonneg_right havg hocc) h365) _

/-- The top-tier figure of the code equals the reference figure of the
specification wording. -/
theorem topRevenue_eq_spec (comps : List Comp) (occ cleaning frac : ℚ)
    (hn : 0 < (compsWithADR comps).length) :
    topRevenue comps occ cleaning frac = specTopRevenue comps occ cleaning frac := by
  have hk1 : 1 ≤ actualNumTop (compsWithADR comps).length frac :=
    one_le_actualNumTop hn frac
  have hk : actualNumTop (compsWithADR comps).length frac
      ≤ (compsWithADR comps).length :=
    actualNumTop_le _ frac
  rw [topRevenue, specTopRevenue]
  show avgADR _ * occ * 365 + cleaning = _
  rw [avgADR_take (compsWithADR comps) hk1 hk]
  have hkk : actualNumTop (compsWithADR comps).length frac
      = min (comps.filter adrPos).length
          (max 1 (Int.toNat ⌈frac * ((comps.filter adrPos).length : ℚ)⌉)) := by
    rw [actualNumTop, mul_comm, min_comm]
    rfl
  rw [hkk, List.map_take]
  rfl

/-! ### Defaulting lemmas -/

theorem adrVal_defaultComp (c : Comp) : adrVal (defaultComp c) = adrVal c := rfl

theorem adrPos_defaultComp (c : Comp) : adrPos (defaultComp c) = adrPos c := by
  cases c with
  | mk a =>
    cases a with
    | none => rfl
    | some v => rfl

theorem adrGE_defaultComp_iff (a b : Comp) :
    adrGE a b ↔ adrGE (defaultComp a) (defaultComp b) := Iff.rfl

theorem compsWithADR_map_defaultComp (comps : List Comp) :
    compsWithADR (comps.map defaultComp) = (compsWithADR comps).map defaultComp := by
  rw [compsWithADR, compsWithADR, List.filter_map]
  exact congrArg (List.map defaultComp)
    (List.filter_congr (fun c _ => adrPos_defaultComp c))

theorem insertionSort_map_defaultComp (l : List Comp) :
    List.insertionSort adrGE (l.map defaultComp)
      = (List.insertionSort adrGE l).map defaultComp :=
  (List.map_insertionSort adrGE adrGE defaultComp l
    (fun a _ b _ => adrGE_defaultComp_iff a b)).symm

theorem avgADR_map_defaultComp (l : List Comp) :
    avgADR (l.map defaultComp) = avgADR l := by
  rw [avgADR, avgADR, List.length_map, List.map_map]
  rfl

theorem topRevenue_map_defaultComp (comps : List Comp) (occ cleaning frac : ℚ) :
    topRevenue (comps.map defaultComp) occ cleaning frac
      = topRevenue comps occ cleaning frac := by
  rw [topRevenue, topRevenue, compsWithADR_map_defaultComp,
    insertionSort_map_defaultComp, List.length_map]
  show avgADR (((List.insertionSort adrGE (compsWithADR comps)).map defaultComp).take _)
      * occ * 365 + cleaning = _
  rw [← List.map_take, avgADR_map_defaultComp]

/-! ### Claim theorems -/

/-- C1: for every stats object with numeric revenueLTM, cleaningFeeLTM and
occupancyLTM and every comps list, the pre-jitter output of calculateRevenues
equals the reference definition: typical = revenueLTM + cleaningFeeLTM,
independent of comps and occupancy; and whenever the comps filtered to
positive ADR are non-empty and occupancy is positive, top25 and top10 equal
the arithmetic mean of the first min(n, max(1, ceil(frac n))) elements of the
filtered comps sorted by ADR descending, times occupancy, times 365, plus the
cleaning fee, for frac = 25/100 and 10/100 respectively. -/
theorem calculateRevenuesPre_matches_reference (r c occ : ℚ) (comps : List Comp) :
    (calculateRevenuesPre ⟨some r, some c, some occ⟩ comps).typical = r + c ∧
    (comps.filter adrPos ≠ [] → 0 < occ →
      (calculateRevenuesPre ⟨some r, some c, some occ⟩ comps).top25
          = specTopRevenue comps occ c (25/100) ∧
      (calculateRevenuesPre ⟨some r, some c, some occ⟩ comps).top10
          = specTopRevenue comps occ c (10/100)) := by
  constructor
  · simp only [calculateRevenuesPre]
    split <;> rfl
  · intro hne hocc
    have hn : 0 < (compsWithADR comps).length := by
      rw [compsWithADR]
      exact List.length_pos.mpr hne
    constructor
    · simp only [calculateRevenuesPre, orZero, Option.getD_some]
      rw [if_pos ⟨hn, hocc⟩]
      exact topRevenue_eq_spec comps occ c (25/100) hn
    · simp only [calculateRevenuesPre, orZero, Option.getD_some]
      rw [if_pos ⟨hn, hocc⟩]
      exact topRevenue_eq_spec comps occ c (10/100) hn

/-- Witness for C1: the scenario of the specification, four comps with ADRs
300, 200, 100, 50, occupancy one half, revenue 1000 and cleaning fee 100. -/
theorem calculateRevenuesPre_matches_reference_witness :
    (calculateRevenuesPre ⟨some 1000, some 100, some (1/2)⟩
        [⟨some 300⟩, ⟨some 200⟩, ⟨some 100⟩, ⟨some 50⟩]).typical = 1000 + 100 ∧
    ((calculateRevenuesPre ⟨some 1000, some 100, some (1/2)⟩
        [⟨some 300⟩, ⟨some 200⟩, ⟨some 100⟩, ⟨some 50⟩]).top25
      = specTopRevenue [⟨some 300⟩, ⟨some 200⟩, ⟨some 100⟩, ⟨some 50⟩]
          (1/2) 100 (25/100) ∧
     (calculateRevenuesPre ⟨some 1000, some 100, some (1/2)⟩
        [⟨some 300⟩, ⟨some 200⟩, ⟨some 100⟩, ⟨some 50⟩]).top10
      = specTopRevenue [⟨some 300⟩, ⟨some 200⟩, ⟨some 100⟩, ⟨some 50⟩]
          (1/2) 100 (10/100)) :=
  ⟨(calculateRevenuesPre_matches_reference 1000 100 (1/2)
      [⟨some 300⟩, ⟨some 200⟩, ⟨some 100⟩, ⟨some 50⟩]).1,
   (calculateRevenuesPre_matches_reference 1000 100 (1/2)
      [⟨some 300⟩, ⟨some 200⟩, ⟨some 100⟩, ⟨some 50⟩]).2
     (by decide) (by norm_num)⟩

/-- C3: whenever every comp has its ADR absent or non-positive, or the market
occupancy is non-positive, calculateRevenues returns top25 = 0 and top10 = 0
exactly, the jitter being the identity on non-positive values, and the call
does not fail (the function is total). -/
theorem degenerate_top_tiers_zero (stats : Stats) (comps : List Comp)
    (f1 f2 f3 : ℚ)
    (h : (∀ c ∈ comps, adrPos c = false) ∨ orZero stats.occupancyLTM ≤ 0) :
    (calculateRevenues stats comps f1 f2 f3).top25 = 0 ∧
    (calculateRevenues stats comps f1 f2 f3).top10 = 0 := by
  have hcond : ¬ (0 < (compsWithADR comps).length
      ∧ 0 < orZero stats.occupancyLTM) := by
    rcases h with h | h
    · rintro ⟨h1, -⟩
      rw [compsWithADR, List.filter_eq_nil_iff.mpr
        (fun a ha => by rw [h a ha]; exact Bool.false_ne_true)] at h1
      exact absurd h1 (by decide)
    · rintro ⟨-, h2⟩
      exact absurd h2 (not_lt.mpr h)
  have hpre : calculateRevenuesPre stats comps
      = ⟨orZero stats.revenueLTM + orZero stats.cleaningFeeLTM, 0, 0⟩ := by
    simp only [calculateRevenuesPre]
    rw [if_neg hcond]
  constructor
  · show applyRandomness (calculateRevenuesPre stats comps).top25 f2 = 0
    rw [hpre]
    rfl
  · show applyRandomness (calculateRevenuesPre stats comps).top10 f3 = 0
    rw [hpre]
    rfl

/-- Witness for C3: three comps with absent, zero and negative ADR, positive
occupancy. -/
theorem degenerate_top_tiers_zero_witness :
    (calculateRevenues ⟨some 500, some 20, some 1⟩
        [⟨none⟩, ⟨some 0⟩, ⟨some (-3)⟩] (1/100) (1/100) (1/100)).top25 = 0 ∧
    (calculateRevenues ⟨some 500, some 20, some 1⟩
        [⟨none⟩, ⟨some 0⟩, ⟨some (-3)⟩] (1/100) (1/100) (1/100)).top10 = 0 :=
  degenerate_top_tiers_zero ⟨some 500, some 20, some 1⟩
    [⟨none⟩, ⟨some 0⟩, ⟨some (-3)⟩] (1/100) (1/100) (1/100)
    (Or.inl (by decide))

/-- C4: the jitter returns a non-positive value unchanged, and for a positive
value and a factor between -1/100 and 1/100 it returns value times (1 +
factor), which lies between 99/100 and 101/100 of the value. -/
theorem applyRandomness_bounds (v f : ℚ) (hf1 : -(1/100) ≤ f)
    (hf2 : f ≤ 1/100) :
    (v ≤ 0 → applyRandomness v f = v) ∧
    (0 < v → applyRandomness v f = v * (1 + f) ∧
      (99/100) * v ≤ applyRandomness v f ∧
      applyRandomness v f ≤ (101/100) * v) := by
  constructor
  · intro hv
    rw [applyRandomness, if_pos hv]
  · intro hv
    rw [applyRandomness, if_neg (not_le.mpr hv)]
    refine ⟨rfl, ?_, ?_⟩ <;> nlinarith

/-- Witness for C4 at v = -5 and v = 100 with factor 1/100. -/
theorem applyRandomness_bounds_witness :
    applyRandomness (-5) (1/100) = -5 ∧
    (applyRandomness 100 (1/100) = 100 * (1 + 1/100) ∧
      (99/100) * 100 ≤ applyRandomness 100 (1/100) ∧
      applyRandomness 100 (1/100) ≤ (101/100) * 100) :=
  ⟨(applyRandomness_bounds (-5) (1/100) (by norm_num) (by norm_num)).1
      (by norm_num),
   (applyRandomness_bounds 100 (1/100) (by norm_num) (by norm_num)).2
      (by norm_num)⟩

/-- C9: calculateRevenues is total (never raises) and missing numeric fields
behave exactly as the value 0: the result on any stats and comps equals the
result on the same inputs with every absent revenueLTM, cleaningFeeLTM,
occupancyLTM and adrLTM replaced by 0. -/
theorem calculateRevenues_defaults_missing_fields (stats : Stats)
    (comps : List Comp) (f1 f2 f3 : ℚ) :
    calculateRevenues stats comps f1 f2 f3
      = calculateRevenues (defaultStats stats) (comps.map defaultComp) f1 f2 f3 := by
  have hpre : calculateRevenuesPre stats comps
      = calculateRevenuesPre (defaultStats stats) (comps.map defaultComp) := by
    simp only [calculateRevenuesPre, defaultStats, orZero, Option.getD_some]
    rw [compsWithADR_map_defaultComp, List.length_map,
      topRevenue_map_defaultComp, topRevenue_map_defaultComp]
  rw [calculateRevenues, calculateRevenues, hpre]

/-- C10: the pre-jitter top10 figure is always at least the pre-jitter top25
figure: the top ten percent slice is an initial segment of the top twenty-five
percent slice of the descending-sorted comps, and prefix means of a
non-increasing sequence do not increase with length; in the degenerate branch
both figures are 0. -/
theorem top10_ge_top25_pre_jitter (stats : Stats) (comps : List Comp) :
    (calculateRevenuesPre stats comps).top25
      ≤ (calculateRevenuesPre stats comps).top10 := by
  simp only [calculateRevenuesPre]
  split
  next h =>
    exact topRevenue_anti comps _ _ (le_of_lt h.2) h.1
      (by norm_num : (10 : ℚ)/100 ≤ 25/100)
  next _ => exact le_refl 0

/-- Composite effect on a positive figure of the calculator jitter (factor
between -1/100 and 1/100) followed by the route vary (percent between 0 and
15/1000, direction plus or minus one). -/
theorem vary_applyRandomness_bounds (v f p d : ℚ)
    (hf1 : -(1/100) ≤ f) (hf2 : f ≤ 1/100) (hp1 : 0 ≤ p) (hp2 : p ≤ 15/1000)
    (hd : d = 1 ∨ d = -1) (hv : 0 < v) :
    (99/100) * (985/1000) * v ≤ vary (applyRandomness v f) p d ∧
    vary (applyRandomness v f) p d ≤ (101/100) * (1015/1000) * v := by
  rw [applyRandomness, if_neg (not_le.mpr hv)]
  have hwpos : 0 < v * (1 + f) := by nlinarith
  rw [vary, if_neg (ne_of_gt hwpos)]
  have hpd1 : -(15/1000 : ℚ) ≤ p * d := by
    rcases hd with h | h <;> rw [h] <;> nlinarith
  have hpd2 : p * d ≤ 15/1000 := by
    rcases hd with h | h <;> rw [h] <;> nlinarith
  have hw1 : (99/100) * v ≤ v * (1 + f) := by nlinarith
  have hw2 : v * (1 + f) ≤ (101/100) * v := by nlinarith
  constructor
  · calc (99/100) * (985/1000) * v = ((99/100) * v) * (985/1000) := by ring
      _ ≤ (v * (1 + f)) * (1 + p * d) :=
          mul_le_mul hw1 (by linarith) (by norm_num) (le_of_lt hwpos)
      _ = v * (1 + f) + v * (1 + f) * p * d := by ring
  · calc v * (1 + f) + v * (1 + f) * p * d = (v * (1 + f)) * (1 + p * d) := by
          ring
      _ ≤ ((101/100) * v) * (1015/1000) :=
          mul_le_mul hw2 (by linarith) (by linarith) (by nlinarith)
      _ = (101/100) * (1015/1000) * v := by ring

/-- C2 fails on the code: with every random draw inside its legal range
(jitter factor 1/100, vary percent 1/100 which is below 15/1000, direction 1)
the reported typical figure differs from the jittered figure returned by the
calculator, and exceeds 101/100 of the positive pre-jitter figure: the route
applies vary on top of the calculator jitter. -/
theorem response_double_jitter_counterexample :
    (responseRevenues (calculateRevenues ⟨some 100, some 0, some 0⟩ []
          (1/100) 0 0) (1/100) 1 0 1 0 1).typical
        ≠ (calculateRevenues ⟨some 100, some 0, some 0⟩ [] (1/100) 0 0).typical ∧
    ¬ ((responseRevenues (calculateRevenues ⟨some 100, some 0, some 0⟩ []
          (1/100) 0 0) (1/100) 1 0 1 0 1).typical
        ≤ (101/100) * (calculateRevenuesPre ⟨some 100, some 0, some 0⟩ []).typical) := by
  norm_num [responseRevenues, vary, calculateRevenues, calculateRevenuesPre,
    applyRandomness, compsWithADR, orZero, List.filter]

/-- C2 amended: each of the three response fields equals vary applied to the
corresponding jittered calculator figure — a second, independent perturbation
of up to 15/1000 on top of the 1/100 jitter — so for a positive pre-jitter
figure v the reported figure lies between (99/100)(985/1000) v and
(101/100)(1015/1000) v. -/
theorem response_double_jitter_amended (stats : Stats) (comps : List Comp)
    (f1 f2 f3 p1 d1 p2 d2 p3 d3 : ℚ)
    (hf11 : -(1/100) ≤ f1) (hf12 : f1 ≤ 1/100)
    (hf21 : -(1/100) ≤ f2) (hf22 : f2 ≤ 1/100)
    (hf31 : -(1/100) ≤ f3) (hf32 : f3 ≤ 1/100)
    (hp11 : 0 ≤ p1) (hp12 : p1 ≤ 15/1000) (hd1 : d1 = 1 ∨ d1 = -1)
    (hp21 : 0 ≤ p2) (hp22 : p2 ≤ 15/1000) (hd2 : d2 = 1 ∨ d2 = -1)
    (hp31 : 0 ≤ p3) (hp32 : p3 ≤ 15/1000) (hd3 : d3 = 1 ∨ d3 = -1) :
    (responseRevenues (calculateRevenues stats comps f1 f2 f3) p1 d1 p2 d2 p3 d3
      = ⟨vary (applyRandomness (calculateRevenuesPre stats comps).typical f1) p1 d1,
         vary (applyRandomness (calculateRevenuesPre stats comps).top25 f2) p2 d2,
         vary (applyRandomness (calculateRevenuesPre stats comps).top10 f3) p3 d3⟩) ∧
    (0 < (calculateRevenuesPre stats comps).typical →
      (99/100) * (985/1000) * (calculateRevenuesPre stats comps).typical
          ≤ (responseRevenues (calculateRevenues stats comps f1 f2 f3)
              p1 d1 p2 d2 p3 d3).typical ∧
      (responseRevenues (calculateRevenues stats comps f1 f2 f3)
              p1 d1 p2 d2 p3 d3).typical
          ≤ (101/100) * (1015/1000) * (calculateRevenuesPre stats comps).typical) ∧
    (0 < (calculateRevenuesPre stats comps).top25 →
      (99/100) * (985/1000) * (calculateRevenuesPre stats comps).top25
          ≤ (responseRevenues (calculateRevenues stats comps f1 f2 f3)
              p1 d1 p2 d2 p3 d3).top25 ∧
      (responseRevenues (calculateRevenues stats comps f1 f2 f3)
              p1 d1 p2 d2 p3 d3).top25
          ≤ (101/100) * (1015/1000) * (calculateRevenuesPre stats comps).top25) ∧
    (0 < (calculateRevenuesPre stats comps).top10 →
      (99/100) * (985/1000) * (calculateRevenuesPre stats comps).top10
          ≤ (responseRevenues (calculateRevenues stats comps f1 f2 f3)
              p1 d1 p2 d2 p3 d3).top10 ∧
      (responseRevenues (calculateRevenues stats comps f1 f2 f3)
              p1 d1 p2 d2 p3 d3).top10
          ≤ (101/100) * (1015/1000) * (calculateRevenuesPre stats comps).top10) := by
  refine ⟨rfl, fun hv => ?_, fun hv => ?_, fun hv => ?_⟩
  · exact vary_applyRandomness_bounds _ f1 p1 d1 hf11 hf12 hp11 hp12 hd1 hv
  · exact vary_applyRandomness_bounds _ f2 p2 d2 hf21 hf22 hp21 hp22 hd2 hv
  · exact vary_applyRandomness_bounds _ f3 p3 d3 hf31 hf32 hp31 hp32 hd3 hv

/-- Witness for the amended C2 at the concrete run of the counterexample. -/
theorem response_double_jitter_amended_witness :
    (responseRevenues (calculateRevenues ⟨some 100, some 0, some 0⟩ []
        (1/100) (1/100) (1/100)) (1/100) 1 (1/100) 1 (1/100) 1
      = ⟨vary (applyRandomness
            (calculateRevenuesPre ⟨some 100, some 0, some 0⟩ []).typical (1/100))
            (1/100) 1,
         vary (applyRandomness
            (calculateRevenuesPre ⟨some 100, some 0, some 0⟩ []).top25 (1/100))
            (1/100) 1,
         vary (applyRandomness
            (calculateRevenuesPre ⟨some 100, some 0, some 0⟩ []).top10 (1/100))
            (1/100) 1⟩) ∧
    ((99/100) * (985/1000)
        * (calculateRevenuesPre ⟨some 100, some 0, some 0⟩ []).typical
      ≤ (responseRevenues (calculateRevenues ⟨some 100, some 0, some 0⟩ []
          (1/100) (1/100) (1/100)) (1/100) 1 (1/100) 1 (1/100) 1).typical ∧
     (responseRevenues (calculateRevenues ⟨some 100, some 0, some 0⟩ []
          (1/100) (1/100) (1/100)) (1/100) 1 (1/100) 1 (1/100) 1).typical
      ≤ (101/100) * (1015/1000)
        * (calculateRevenuesPre ⟨some 100, some 0, some 0⟩ []).typical) := by
  have h := response_double_jitter_amended ⟨some 100, some 0, some 0⟩ []
    (1/100) (1/100) (1/100) (1/100) 1 (1/100) 1 (1/100) 1
    (by norm_num) (by norm_num) (by norm_num) (by norm_num)
    (by norm_num) (by norm_num) (by norm_num) (by norm_num) (Or.inl rfl)
    (by norm_num) (by norm_num) (Or.inl rfl)
    (by norm_num) (by norm_num) (Or.inl rfl)
  exact ⟨h.1, h.2.1 (by
    norm_num [calculateRevenuesPre, compsWithADR, orZero, List.filter])⟩

/-- C5: on a fresh cache hit the analysis proceeds on the stored payload, the
source is tagged cache, and no provider fetch call is issued during the
request. -/
theorem cache_hit_no_provider_fetch (p : Payload) (fetch : FetchOutcome)
    (persist : PersistOutcome) :
    (analyzeFlow (CacheCheck.hit p) fetch persist).fetchCalled = false ∧
    (analyzeFlow (CacheCheck.hit p) fetch persist).source = "cache" ∧
    (analyzeFlow (CacheCheck.hit p) fetch persist).payloadUsed = some p :=
  ⟨rfl, rfl, rfl⟩

/-- C6: a failed cache lookup does not abort the request: the cache-check
alert is emitted, the provider fetch is issued while the source variable holds
api_due_to_cache_error, and when the fetch succeeds with a payload passing
validation the request still returns a successful analysis result. -/
theorem cache_error_falls_through_to_fetch (fetch : FetchOutcome)
    (persist : PersistOutcome) :
    (analyzeFlow CacheCheck.err fetch persist).alertCacheCheck = true ∧
    (analyzeFlow CacheCheck.err fetch persist).fetchCalled = true ∧
    (analyzeFlow CacheCheck.err fetch persist).sourceAtFetch
        = some "api_due_to_cache_error" ∧
    (∀ p, fetch = FetchOutcome.ok p → validPayload p = true →
      (analyzeFlow CacheCheck.err fetch persist).success = true) := by
  cases fetch with
  | ok p =>
    refine ⟨rfl, rfl, rfl, ?_⟩
    intro q hq hv
    cases hq
    exact hv
  | httpError =>
    refine ⟨rfl, rfl, rfl, ?_⟩
    intro q hq hv
    exact FetchOutcome.noConfusion hq

/-- Witness for C6: cache error, then a successful fetch of a valid payload. -/
theorem cache_error_falls_through_to_fetch_witness :
    (analyzeFlow CacheCheck.err (FetchOutcome.ok ⟨some ⟨true, true, true⟩⟩)
        PersistOutcome.ok).alertCacheCheck = true ∧
    (analyzeFlow CacheCheck.err (FetchOutcome.ok ⟨some ⟨true, true, true⟩⟩)
        PersistOutcome.ok).fetchCalled = true ∧
    (analyzeFlow CacheCheck.err (FetchOutcome.ok ⟨some ⟨true, true, true⟩⟩)
        PersistOutcome.ok).sourceAtFetch = some "api_due_to_cache_error" ∧
    (analyzeFlow CacheCheck.err (FetchOutcome.ok ⟨some ⟨true, true, true⟩⟩)
        PersistOutcome.ok).success = true := by
  have h := cache_error_falls_through_to_fetch
    (FetchOutcome.ok ⟨some ⟨true, true, true⟩⟩) PersistOutcome.ok
  exact ⟨h.1, h.2.1, h.2.2.1, h.2.2.2 ⟨some ⟨true, true, true⟩⟩ rfl rfl⟩

/-- C7: after a successful fetch, a failing cache write is alerted but the
request still succeeds on the freshly fetched in-memory payload whenever that
payload validates; moreover the success flag, the payload used and the final
source tag are identical to the run where the write succeeds, so a cache-write
failure never turns a successful analysis into a failed response. -/
theorem persist_failure_nonfatal (cache : CacheCheck) (p : Payload)
    (hc : ∀ q, cache ≠ CacheCheck.hit q) :
    (analyzeFlow cache (FetchOutcome.ok p) PersistOutcome.fail).alertCacheSave
        = true ∧
    (validPayload p = true →
      (analyzeFlow cache (FetchOutcome.ok p) PersistOutcome.fail).success = true) ∧
    (analyzeFlow cache (FetchOutcome.ok p) PersistOutcome.fail).payloadUsed
        = some p ∧
    (analyzeFlow cache (FetchOutcome.ok p) PersistOutcome.fail).success
        = (analyzeFlow cache (FetchOutcome.ok p) PersistOutcome.ok).success ∧
    (analyzeFlow cache (FetchOutcome.ok p) PersistOutcome.fail).payloadUsed
        = (analyzeFlow cache (FetchOutcome.ok p) PersistOutcome.ok).payloadUsed ∧
    (analyzeFlow cache (FetchOutcome.ok p) PersistOutcome.fail).source
        = (analyzeFlow cache (FetchOutcome.ok p) PersistOutcome.ok).source := by
  cases cache with
  | hit q => exact absurd rfl (hc q)
  | miss => exact ⟨rfl, fun hv => hv, rfl, rfl, rfl, rfl⟩
  | err => exact ⟨rfl, fun hv => hv, rfl, rfl, rfl, rfl⟩

/-- Witness for C7: cache miss, valid payload, failing write. -/
theorem persist_failure_nonfatal_witness :
    (analyzeFlow CacheCheck.miss (FetchOutcome.ok ⟨some ⟨true, true, true⟩⟩)
        PersistOutcome.fail).alertCacheSave = true ∧
    (analyzeFlow CacheCheck.miss (FetchOutcome.ok ⟨some ⟨true, true, true⟩⟩)
        PersistOutcome.fail).success = true ∧
    (analyzeFlow CacheCheck.miss (FetchOutcome.ok ⟨some ⟨true, true, true⟩⟩)
        PersistOutcome.fail).payloadUsed = some ⟨some ⟨true, true, true⟩⟩ := by
  have h := persist_failure_nonfatal CacheCheck.miss ⟨some ⟨true, true, true⟩⟩
    (fun q heq => CacheCheck.noConfusion heq)
  exact ⟨h.1, h.2.1 rfl, h.2.2.1⟩

/-- C8 fails on the code: the cache write runs before shape validation.  On a
cache miss, a successful fetch of a structurally invalid payload (top-level
data key absent) with a succeeding upsert persists the invalid payload to the
cache, while the request itself then fails validation. -/
theorem cache_write_before_validation_counterexample :
    validPayload ⟨none⟩ = false ∧
    (analyzeFlow CacheCheck.miss (FetchOutcome.ok ⟨none⟩)
        PersistOutcome.ok).cacheWritten = some ⟨none⟩ ∧
    (analyzeFlow CacheCheck.miss (FetchOutcome.ok ⟨none⟩)
        PersistOutcome.ok).success = false :=
  ⟨rfl, rfl, rfl⟩

/-- C8 amended: on fetch success the raw payload is persisted to the cache via
upsert keyed by address BEFORE shape validation, whether or not it passes that
validation; validation then runs afterwards and determines the success flag. -/
theorem cache_write_before_validation_amended (cache : CacheCheck) (p : Payload)
    (hc : ∀ q, cache ≠ CacheCheck.hit q) :
    (analyzeFlow cache (FetchOutcome.ok p)
        PersistOutcome.ok).cacheWriteAttempted = true ∧
    (analyzeFlow cache (FetchOutcome.ok p) PersistOutcome.ok).cacheWritten
        = some p ∧
    (analyzeFlow cache (FetchOutcome.ok p) PersistOutcome.ok).success
        = validPayload p := by
  cases cache with
  | hit q => exact absurd rfl (hc q)
  | miss => exact ⟨rfl, rfl, rfl⟩
  | err => exact ⟨rfl, rfl, rfl⟩

/-- Witness for the amended C8: cache miss with a payload missing its
property_statistics sub-object. -/
theorem cache_write_before_validation_amended_witness :
    (analyzeFlow CacheCheck.miss (FetchOutcome.ok ⟨some ⟨true, false, true⟩⟩)
        PersistOutcome.ok).cacheWriteAttempted = true ∧
    (analyzeFlow CacheCheck.miss (FetchOutcome.ok ⟨some ⟨true, false, true⟩⟩)
        PersistOutcome.ok).cacheWritten = some ⟨some ⟨true, false, true⟩⟩ ∧
    (analyzeFlow CacheCheck.miss (FetchOutcome.ok ⟨some ⟨true, false, true⟩⟩)
        PersistOutcome.ok).success = validPayload ⟨some ⟨true, false, true⟩⟩ := by
  exact cache_write_before_validation_amended CacheCheck.miss
    ⟨some ⟨true, false, true⟩⟩ (fun q heq => CacheCheck.noConfusion heq)

end StaySTRa
